import Mathlib

/-!
Verification of the QueueIT backend's session & queue orchestration core.

The Python sources under `QueueITbackend/app` are shallowly embedded here:
rows of the Supabase tables (`users`, `sessions`, `songs`, `queued_songs`,
`votes`) become Lean structures, the whole store becomes a `DB` record, and
each repository/service function becomes a Lean function on `DB`.  Fallible
operations return `DB × Except HError α`: the first component is the store
after the call (FastAPI's `HTTPException` does not roll back writes that
already happened), the second is the HTTP outcome.  Storage-generated ids
and `created_at` timestamps are modelled by the `next_id` / `now` counters
of `DB`.
-/

namespace QueueIT

/-- Row of the `songs` catalog table (see `app/repositories/song_repo.py`).
Field names follow the columns used by `queue_repo.py`
(`external_id`, `isrc_identifier`, `name`, `artist`, `album`,
`durationMSs`, `image_url`). -/
structure Song where
  external_id : String
  isrc_identifier : String
  name : String
  artist : String
  album : String
  durationMSs : Nat
  image_url : String
  deriving Repr, DecidableEq

/-- Row of the `users` table: id, username and the nullable
`current_session` reference mutated by the session lifecycle code. -/
structure UserRow where
  id : Nat
  username : String
  current_session : Option Nat
  deriving Repr, DecidableEq

/-- Row of the `sessions` table: unique `join_code`, `host_id`,
nullable `current_song` reference to a queued song. -/
structure Session where
  id : Nat
  join_code : String
  host_id : Nat
  current_song : Option Nat
  created_at : Nat
  deriving Repr, DecidableEq

/-- Row of the `queued_songs` table, as inserted by
`QueueRepository.add_song_to_queue`. -/
structure QueuedSong where
  id : Nat
  session_id : Nat
  added_by_id : Nat
  song_external_id : String
  status : String
  created_at : Nat
  deriving Repr, DecidableEq

/-- Row of the `votes` table, unique per (queued_song, user) pair. -/
structure Vote where
  queued_song_id : Nat
  user_id : Nat
  vote_value : Int
  deriving Repr, DecidableEq

/-- The whole backing store.  `next_id` and `now` model the
database-generated primary keys and `created_at` timestamps. -/
structure DB where
  users : List UserRow
  sessions : List Session
  songs : List Song
  queued_songs : List QueuedSong
  votes : List Vote
  next_id : Nat
  now : Nat
  deriving Repr, DecidableEq

/-- Error kinds surfaced to callers, following the HTTP statuses the
services raise (`400 badRequest`, `403 forbidden`, `404 notFound`,
`409 conflict`, `422 validation`) plus `internal` for uncaught
`ValueError`/storage failures that FastAPI turns into a 500. -/
inductive HError where
  | notFound
  | forbidden
  | badRequest
  | conflict
  | validation
  | internal
  deriving Repr, DecidableEq

/-! ### Request validators (`app/schemas/session.py`) -/

/-- Validator of `SessionCreateRequest.join_code`: pydantic field with
`min_length=4, max_length=20`. -/
def session_create_request_valid (join_code : String) : Bool :=
  decide (4 ≤ join_code.length) && decide (join_code.length ≤ 20)

/-- Validator of `SessionJoinRequest.join_code`: pydantic field with
`min_length=4, max_length=10`. -/
def session_join_request_valid (join_code : String) : Bool :=
  decide (4 ≤ join_code.length) && decide (join_code.length ≤ 10)

/-! ### The catalog upsert call (`queue_service.py` line 48 vs
`song_repo.py` line 31)

`SongRepository.upsert_song` is declared with the keyword-only
parameters below; the only call site,
`queue_service.add_song_to_queue_for_user`, passes the keyword
arguments listed in `add_song_upsert_call_kwargs`.  Python binds
keyword arguments by name, so the call raises `TypeError` whenever a
passed keyword is not a parameter or a (default-less) parameter is not
passed. -/

/-- Keyword-only parameters of `SongRepository.upsert_song`, in source
order; none of them has a default value. -/
def upsert_song_params : List String :=
  ["spotify_id", "name", "artist", "album", "durationMSs", "image_url",
   "isrc_identifier"]

/-- Keyword arguments passed by `add_song_to_queue_for_user` at
`queue_service.py` lines 48-57. -/
def add_song_upsert_call_kwargs : List String :=
  ["external_id", "name", "artist", "album", "durationMSs", "image_url",
   "isrc_identifier", "source"]

/-- Python keyword binding for a call that passes only keyword
arguments to a function whose parameters are keyword-only and have no
defaults: it succeeds exactly when every passed keyword names a
parameter and every parameter is passed. -/
def python_kwargs_bind_ok (params kwargs : List String) : Bool :=
  kwargs.all (fun k => params.contains k) &&
  params.all (fun p => kwargs.contains p)

/-! ### Vote aggregation (`QueueRepository._fetch_votes_sum_map`) -/

/-- Lookup in the association list modelling a Python dict with `Nat`
keys and `Int` values (`totals.get(qid, default)` uses `.getD`). -/
def alistLookup (l : List (Nat × Int)) (k : Nat) : Option Int :=
  (l.find? (fun p => p.1 == k)).map (fun p => p.2)

/-- Assignment `totals[k] = v` on a Python dict: overwrite the existing entry for
`k`, or append a fresh one. -/
def alistInsert : List (Nat × Int) → Nat → Int → List (Nat × Int)
  | [], k, v => [(k, v)]
  | p :: ps, k, v => if p.1 == k then (k, v) :: ps else p :: alistInsert ps k v

/-- The accumulation loop of `_fetch_votes_sum_map`: for each fetched
vote row add its `vote_value` into the totals dict. -/
def votesSumFold (rows : List Vote) (acc : List (Nat × Int)) : List (Nat × Int) :=
  rows.foldl
    (fun totals row =>
      alistInsert totals row.queued_song_id
        ((alistLookup totals row.queued_song_id).getD 0 + row.vote_value))
    acc

/-- Embeds `QueueRepository._fetch_votes_sum_map`: selects the vote rows whose
`queued_song_id` is among `qids` and folds them into a totals dict. -/
def fetch_votes_sum_map (votes : List Vote) (qids : List Nat) : List (Nat × Int) :=
  votesSumFold (votes.filter (fun v => qids.contains v.queued_song_id)) []

/-- Reference aggregate, written from the spec's words: the vote total
of a queued song is the sum of the `vote_value`s of its vote rows
(empty sum = 0).  Used to compare the code's dict-fold against the
specified aggregation. -/
def specVoteTotal (votes : List Vote) (qid : Nat) : Int :=
  ((votes.filter (fun v => v.queued_song_id == qid)).map (fun v => v.vote_value)).sum

theorem alistLookup_cons (p : Nat × Int) (ps : List (Nat × Int)) (k : Nat) :
    alistLookup (p :: ps) k = if p.1 == k then some p.2 else alistLookup ps k := by
  by_cases h : p.1 = k
  · simp [alistLookup, List.find?_cons, h]
  · have hb : (p.1 == k) = false := by simp [h]
    simp [alistLookup, List.find?_cons, hb]

theorem alistLookup_insert_self (l : List (Nat × Int)) (k : Nat) (v : Int) :
    alistLookup (alistInsert l k v) k = some v := by
  induction l with
  | nil => simp [alistInsert, alistLookup]
  | cons p ps ih =>
    by_cases h : p.1 = k
    · simp [alistInsert, h, alistLookup_cons]
    · have hb : (p.1 == k) = false := by simp [h]
      rw [alistInsert, hb]
      simp only [Bool.false_eq_true, if_false]
      rw [alistLookup_cons, hb]
      simpa using ih

theorem alistLookup_insert_ne (l : List (Nat × Int)) (k : Nat) (v : Int) (k' : Nat)
    (h : k' ≠ k) :
    alistLookup (alistInsert l k v) k' = alistLookup l k' := by
  have hkk : (k == k') = false := by
    simpa using Ne.symm h
  induction l with
  | nil => simp [alistInsert, alistLookup, List.find?_cons, hkk]
  | cons p ps ih =>
    by_cases hp : p.1 = k
    · rw [alistInsert, if_pos (by simp [hp])]
      rw [alistLookup_cons, alistLookup_cons]
      simp [hkk, hp]
    · have hb : (p.1 == k) = false := by simp [hp]
      rw [alistInsert, hb]
      simp only [Bool.false_eq_true, if_false]
      rw [alistLookup_cons, alistLookup_cons, ih]

theorem votesSumFold_lookup (rows : List Vote) (acc : List (Nat × Int)) (k : Nat) :
    (alistLookup (votesSumFold rows acc) k).getD 0 =
      (alistLookup acc k).getD 0 +
        ((rows.filter (fun v => v.queued_song_id == k)).map (fun v => v.vote_value)).sum := by
  induction rows generalizing acc with
  | nil => simp [votesSumFold]
  | cons row rest ih =>
    have hstep :
        votesSumFold (row :: rest) acc =
          votesSumFold rest
            (alistInsert acc row.queued_song_id
              ((alistLookup acc row.queued_song_id).getD 0 + row.vote_value)) := by
      simp [votesSumFold, List.foldl_cons]
    rw [hstep, ih]
    by_cases h : row.queued_song_id = k
    · subst h
      rw [alistLookup_insert_self]
      simp
      ring
    · have hb : (row.queued_song_id == k) = false := by simp [h]
      rw [alistLookup_insert_ne _ _ _ _ (fun hh => h hh.symm)]
      simp [hb]

theorem contains_of_mem {l : List Nat} {a : Nat} (h : a ∈ l) :
    l.contains a = true := by
  induction l with
  | nil => simp at h
  | cons b bs ih =>
    rcases List.mem_cons.mp h with h1 | h2
    · subst h1
      simp [List.contains_cons]
    · rw [List.contains_cons, ih h2]
      simp

/-- The dict built by `_fetch_votes_sum_map` agrees with the specified
sum-of-vote-rows aggregate on every id that was asked for. -/
theorem fetch_votes_sum_lookup (votes : List Vote) (qids : List Nat) (k : Nat)
    (hk : k ∈ qids) :
    (alistLookup (fetch_votes_sum_map votes qids) k).getD 0 = specVoteTotal votes k := by
  unfold fetch_votes_sum_map specVoteTotal
  rw [votesSumFold_lookup]
  have hff :
      (votes.filter (fun v => qids.contains v.queued_song_id)).filter
          (fun v => v.queued_song_id == k) =
        votes.filter (fun v => v.queued_song_id == k) := by
    rw [List.filter_filter]
    apply List.filter_congr
    intro v _
    by_cases h : v.queued_song_id = k
    · subst h
      simp [contains_of_mem hk, hk]
    · simp [h]
  rw [hff]
  simp [alistLookup]

/-! ### Queue view (`QueueRepository.list_session_queue`) -/

/-- One enriched row of the queue view built by `list_session_queue`:
`id`/`status`/`added_at` from the `queued_songs` row, `votes` from the
totals dict, `song` and `added_by` from the batch-fetched maps. -/
structure QueueItem where
  id : Nat
  status : String
  added_at : Nat
  votes : Int
  song : Option Song
  added_by : Option UserRow
  deriving Repr, DecidableEq

/-- The `.order("created_at", desc=False)` clause of the initial
`queued_songs` select. -/
def createdLe (a b : QueuedSong) : Prop := a.created_at ≤ b.created_at

instance : DecidableRel createdLe := fun a b => Nat.decLe a.created_at b.created_at

/-- The Python sort key `(-int(votes), added_at)` compared
lexicographically: higher vote totals first, then earlier
`created_at`. -/
def queueLe (a b : QueueItem) : Prop :=
  a.votes > b.votes ∨ (a.votes = b.votes ∧ a.added_at ≤ b.added_at)

instance : DecidableRel queueLe := fun a b =>
  inferInstanceAs (Decidable (a.votes > b.votes ∨ (a.votes = b.votes ∧ a.added_at ≤ b.added_at)))

instance : IsTotal QueueItem queueLe :=
  ⟨by
    intro a b
    unfold queueLe
    omega⟩

instance : IsTrans QueueItem queueLe :=
  ⟨by
    intro a b c hab hbc
    unfold queueLe at hab hbc ⊢
    omega⟩

/-- The rows of `queued_songs` for one session, in the order the
database returns them (`created_at` ascending). -/
def session_queued_rows (db : DB) (session_id : Nat) : List QueuedSong :=
  List.insertionSort createdLe (db.queued_songs.filter (fun q => q.session_id == session_id))

/-- Embeds `QueueRepository._fetch_songs_map` followed by the dict lookup
`songs_by_id.get(key)`: the map is keyed by `external_id`, later rows
overwriting earlier ones (Python dict comprehension). -/
def fetch_songs_map_lookup (songs : List Song) (ids : List String) (key : String) : Option Song :=
  ((songs.filter (fun s => ids.contains s.external_id)).reverse).find?
    (fun s => s.external_id == key)

/-- Embeds `QueueRepository._fetch_users_map` followed by
`users_by_id.get(key)`. -/
def fetch_users_map_lookup (users : List UserRow) (ids : List Nat) (key : Nat) : Option UserRow :=
  ((users.filter (fun u => ids.contains u.id)).reverse).find? (fun u => u.id == key)

/-- Embeds `QueueRepository.list_session_queue`: fetch the session's queued
rows ordered by `created_at`, early-return `[]` when empty, batch-build
the song/user/vote maps, decorate each row, and sort the view rows by
the key `(-votes, added_at)`. -/
def list_session_queue (db : DB) (session_id : Nat) : List QueueItem :=
  let queued_rows := session_queued_rows db session_id
  if queued_rows.isEmpty then [] else
    let votes_map := fetch_votes_sum_map db.votes (queued_rows.map (fun q => q.id))
    let view_rows := queued_rows.map (fun row =>
      { id := row.id
        status := row.status
        added_at := row.created_at
        votes := (alistLookup votes_map row.id).getD 0
        song := fetch_songs_map_lookup db.songs
          (queued_rows.map (fun q => q.song_external_id)) row.song_external_id
        added_by := fetch_users_map_lookup db.users
          (queued_rows.map (fun q => q.added_by_id)) row.added_by_id : QueueItem })
    List.insertionSort queueLe view_rows

/-- Every row of `session_queued_rows` is a `queued_songs` row of that
session. -/
theorem mem_session_queued_rows {db : DB} {sid : Nat} {row : QueuedSong}
    (h : row ∈ session_queued_rows db sid) :
    row ∈ db.queued_songs ∧ row.session_id = sid := by
  unfold session_queued_rows at h
  have h2 := (List.mem_insertionSort createdLe).mp h
  have h3 := List.mem_filter.mp h2
  exact ⟨h3.1, by simpa using h3.2⟩

/-- Every item of the queue view is the decoration of a `queued_songs`
row of the session, and its `votes` field is the totals-dict lookup for
its id. -/
theorem list_session_queue_mem_src {db : DB} {sid : Nat} {it : QueueItem}
    (h : it ∈ list_session_queue db sid) :
    ∃ row ∈ session_queued_rows db sid,
      it.id = row.id ∧ it.status = row.status ∧ it.added_at = row.created_at ∧
      it.votes =
        (alistLookup
          (fetch_votes_sum_map db.votes ((session_queued_rows db sid).map (fun q => q.id)))
          row.id).getD 0 := by
  unfold list_session_queue at h
  by_cases he : (session_queued_rows db sid).isEmpty
  · simp [he] at h
  · simp only [he, if_false, Bool.false_eq_true] at h
    have h2 := (List.mem_insertionSort queueLe).mp h
    rcases List.mem_map.mp h2 with ⟨row, hrow, hview⟩
    refine ⟨row, hrow, ?_, ?_, ?_, ?_⟩ <;> rw [← hview]

/-- C1 — the ordering invariant of `listQueue`.  The returned list is
sorted primarily by vote total descending and, among equal vote totals,
by creation time ascending; and every returned item's vote total is the
sum of its vote rows' values (0 when it has none). -/
theorem listQueue_sorted_by_votes_then_created (db : DB) (sid : Nat) :
    List.Pairwise
      (fun a b : QueueItem =>
        a.votes > b.votes ∨ (a.votes = b.votes ∧ a.added_at ≤ b.added_at))
      (list_session_queue db sid) ∧
    ∀ it ∈ list_session_queue db sid, it.votes = specVoteTotal db.votes it.id := by
  constructor
  · unfold list_session_queue
    by_cases he : (session_queued_rows db sid).isEmpty
    · simp [he]
    · simp only [he, if_false, Bool.false_eq_true]
      exact List.sorted_insertionSort queueLe _
  · intro it hit
    rcases list_session_queue_mem_src hit with ⟨row, hrow, hid, _, _, hvotes⟩
    have hmem : row.id ∈ (session_queued_rows db sid).map (fun q => q.id) :=
      List.mem_map.mpr ⟨row, hrow, rfl⟩
    rw [hvotes, hid, fetch_votes_sum_lookup db.votes _ row.id hmem]

/-! ### Repository operations

Each fallible storage call returns `DB × Except HError α`: the store
after the call and the outcome.  A raised exception does not undo
writes that already happened, so the `DB` component is threaded even
through error returns. -/

/-- Embeds `QueueRepository.update_song_status`: update the status of every
`queued_songs` row matching the id; `ValueError` (→ 500) when no row
matched. -/
def update_song_status (db : DB) (queued_song_id : Nat) (new_status : String) :
    DB × Except HError Unit :=
  if db.queued_songs.any (fun q => q.id == queued_song_id) then
    ({ db with
        queued_songs := db.queued_songs.map
          (fun q => if q.id == queued_song_id then { q with status := new_status } else q) },
      Except.ok ())
  else (db, Except.error HError.internal)

/-- Embeds `SessionRepository.set_current_song`: update `current_song` of the
session row matching the id — the filter is only `.eq("id", session_id)`,
there is no condition on the previous `current_song` value. -/
def set_current_song (db : DB) (session_id : Nat) (queued_song_id : Option Nat) :
    DB × Except HError Unit :=
  if db.sessions.any (fun s => s.id == session_id) then
    ({ db with
        sessions := db.sessions.map
          (fun s => if s.id == session_id then { s with current_song := queued_song_id } else s) },
      Except.ok ())
  else (db, Except.error HError.internal)

/-- Embeds `UserRepository.set_current_session`: update `current_session` of
the user row matching the id; `ValueError` (→ 500) when no row
matched. -/
def set_current_session (db : DB) (user_id : Nat) (session_id : Option Nat) :
    DB × Except HError Unit :=
  if db.users.any (fun u => u.id == user_id) then
    ({ db with
        users := db.users.map
          (fun u => if u.id == user_id then { u with current_session := session_id } else u) },
      Except.ok ())
  else (db, Except.error HError.internal)

/-- Embeds `SessionRepository.get_current_for_user`: read the user's
`current_session` (falsy → none) and resolve it via `get_by_id`. -/
def get_current_for_user (db : DB) (user_id : Nat) : Option Session :=
  match db.users.find? (fun u => u.id == user_id) with
  | none => none
  | some u =>
    match u.current_session with
    | none => none
    | some sid => db.sessions.find? (fun s => s.id == sid)

/-- Embeds `QueueRepository.get_next_queued_song`: the first entry of the
ordered queue view that is still in `queued` status. -/
def get_next_queued_song (db : DB) (session_id : Nat) : Option QueueItem :=
  ((list_session_queue db session_id).filter (fun it => it.status == "queued")).head?

/-- Embeds `session_service._advance_to_next_song`: pick the next queued song;
if there is one, mark it `playing` and point `session.current_song` at
it, otherwise clear `current_song`. -/
def advance_to_next_song (db : DB) (session_id : Nat) :
    DB × Except HError (Option QueueItem) :=
  match get_next_queued_song db session_id with
  | some next_song =>
    match update_song_status db next_song.id "playing" with
    | (db1, Except.ok _) =>
      match set_current_song db1 session_id (some next_song.id) with
      | (db2, Except.ok _) => (db2, Except.ok (some next_song))
      | (db2, Except.error e) => (db2, Except.error e)
    | (db1, Except.error e) => (db1, Except.error e)
  | none =>
    match set_current_song db session_id none with
    | (db1, Except.ok _) => (db1, Except.ok none)
    | (db1, Except.error e) => (db1, Except.error e)

/-- Embeds `SessionRepository.create_session`: insert a new session row.  A
duplicate `join_code` violates the unique constraint; the repository
catches every failure and re-raises `ValueError("Failed to create
session: ...")`, which no caller handles, so the surfaced outcome is
the generic `internal` (HTTP 500) failure, not `conflict`. -/
def create_session (db : DB) (host_id : Nat) (join_code : String) :
    DB × Except HError Session :=
  if db.sessions.any (fun s => s.join_code == join_code) then
    (db, Except.error HError.internal)
  else
    let s : Session :=
      { id := db.next_id, join_code := join_code, host_id := host_id,
        current_song := none, created_at := db.now }
    ({ db with sessions := db.sessions ++ [s], next_id := db.next_id + 1, now := db.now + 1 },
      Except.ok s)

/-! ### Catalog upsert and the add-song flow (`queue_service.py`) -/

/-- Body of `POST /songs/add` (`app/schemas/track.py`
`AddSongRequest`). -/
structure AddSongRequest where
  id : String
  isrc : String
  name : String
  artists : String
  album : String
  duration_ms : Nat
  image_url : String
  source : String
  deriving Repr, DecidableEq

/-- Embeds `queue_service.add_song_to_queue_for_user` as it actually
executes.  After resolving the caller's active session (400 when
none), the call at `queue_service.py:48` passes the keywords
`add_song_upsert_call_kwargs` to `SongRepository.upsert_song`, which
declares the keyword-only parameters `upsert_song_params`; Python
checks the binding before the callee runs, and here it fails
(`external_id`/`source` are not parameters, the required `spotify_id`
is not passed), so the call raises `TypeError` — which nothing catches,
surfacing as a 500 — before any storage write.  Everything after line
48 (the catalog upsert, the `queued_songs` insert, the auto-play
`current_song` update, the response build) is dead code behind this
call; it is abstracted as the continuation `rest`, which runs only if
the binding succeeds, so statements about this function hold for an
arbitrary `rest` and assert nothing about the dead code's behavior. -/
def add_song_to_queue_for_user
    (rest : DB → Session → DB × Except HError QueueItem)
    (db : DB) (user_id : Nat) (req : AddSongRequest) :
    DB × Except HError QueueItem :=
  match get_current_for_user db user_id with
  | none => (db, Except.error HError.badRequest)
  | some session_row =>
    if python_kwargs_bind_ok upsert_song_params add_song_upsert_call_kwargs then
      rest db session_row
    else (db, Except.error HError.internal)

/-! ### Voting (`QueueRepository.vote_on_song`) -/

/-- The storage upsert on the `votes` table with
`on_conflict="queued_song_id, user_id"`: replace the row for the
(song, user) pair, or insert a fresh one. -/
def upsertVote (votes : List Vote) (qid uid : Nat) (v : Int) : List Vote :=
  if votes.any (fun w => w.queued_song_id == qid && w.user_id == uid) then
    votes.map
      (fun w =>
        if w.queued_song_id == qid && w.user_id == uid then { w with vote_value := v } else w)
  else votes ++ [{ queued_song_id := qid, user_id := uid, vote_value := v }]

/-- Embeds `QueueRepository.vote_on_song`: one upsert, then recompute the
aggregate total for the song via `_fetch_votes_sum_map` (ids are
opaque `Nat`s here, so the `.lower()` normalisation of UUID strings is
the identity).  Returns the new store and the `total_votes` value. -/
def vote_on_song (db : DB) (queued_song_id user_id : Nat) (vote_value : Int) :
    DB × Int :=
  let db1 := { db with votes := upsertVote db.votes queued_song_id user_id vote_value }
  let total :=
    (alistLookup (fetch_votes_sum_map db1.votes [queued_song_id]) queued_song_id).getD 0
  (db1, total)

/-! ### Session service (`session_service.py`) -/

/-- Schema `SessionBase` + nested host row, as assembled by
`_map_session_to_schema`. -/
structure SessionView where
  id : Nat
  join_code : String
  created_at : Nat
  host : UserRow
  deriving Repr, DecidableEq

/-- Schema `CurrentSessionResponse`: the all-in-one session view returned by
create/join/getCurrent. -/
structure CurrentSessionResponse where
  session : SessionView
  current_song : Option QueueItem
  queue : List QueueItem
  deriving Repr, DecidableEq

/-- Body of `PATCH /sessions/control_session`
(`SessionControlRequest`). -/
structure SessionControlRequest where
  is_locked : Option Bool
  skip_current_track : Option Bool
  pause_playback : Option Bool
  deriving Repr, DecidableEq

/-- Embeds `session_service.create_session_for_user`: insert the session, set
the creator's `current_session`, resolve the host row, and answer with
an empty queue and no current song. -/
def create_session_for_user (db : DB) (user_id : Nat) (join_code : String) :
    DB × Except HError CurrentSessionResponse :=
  match create_session db user_id join_code with
  | (db1, Except.error e) => (db1, Except.error e)
  | (db1, Except.ok created) =>
    match set_current_session db1 user_id (some created.id) with
    | (db2, Except.error e) => (db2, Except.error e)
    | (db2, Except.ok _) =>
      match db2.users.find? (fun u => u.id == created.host_id) with
      | none => (db2, Except.error HError.notFound)
      | some host_row =>
        (db2,
          Except.ok
            { session :=
                { id := created.id, join_code := created.join_code,
                  created_at := created.created_at, host := host_row },
              current_song := none, queue := [] })

/-- Embeds `session_service.join_session_by_code`: resolve the join code (404
when unknown), set the joiner's `current_session`, resolve the host,
and answer with the ordered queue — and a hard-coded
`current_song=None`. -/
def join_session_by_code (db : DB) (user_id : Nat) (join_code : String) :
    DB × Except HError CurrentSessionResponse :=
  match db.sessions.find? (fun s => s.join_code == join_code) with
  | none => (db, Except.error HError.notFound)
  | some session_row =>
    match set_current_session db user_id (some session_row.id) with
    | (db1, Except.error e) => (db1, Except.error e)
    | (db1, Except.ok _) =>
      match db1.users.find? (fun u => u.id == session_row.host_id) with
      | none => (db1, Except.error HError.notFound)
      | some host_row =>
        (db1,
          Except.ok
            { session :=
                { id := session_row.id, join_code := session_row.join_code,
                  created_at := session_row.created_at, host := host_row },
              current_song := none,
              queue := list_session_queue db1 session_row.id })

/-- Embeds `session_service.control_session_for_user`: resolve the caller's
session (404), re-read it by id (404), reject non-hosts (403); on
`skip_current_track` mark the current song `skipped` (when set) and run
the advance procedure. -/
def control_session_for_user (db : DB) (user_id : Nat) (req : SessionControlRequest) :
    DB × Except HError Unit :=
  match get_current_for_user db user_id with
  | none => (db, Except.error HError.notFound)
  | some session_row =>
    match db.sessions.find? (fun s => s.id == session_row.id) with
    | none => (db, Except.error HError.notFound)
    | some session_details =>
      if session_details.host_id ≠ user_id then (db, Except.error HError.forbidden)
      else if req.skip_current_track = some true then
        let step1 :=
          match session_details.current_song with
          | some cs => update_song_status db cs "skipped"
          | none => (db, Except.ok ())
        match step1 with
        | (db1, Except.error e) => (db1, Except.error e)
        | (db1, Except.ok _) =>
          match advance_to_next_song db1 session_row.id with
          | (db2, Except.error e) => (db2, Except.error e)
          | (db2, Except.ok _) => (db2, Except.ok ())
      else (db, Except.ok ())

/-- Embeds `session_service.song_finished_for_user`: resolve the caller's
session (404), re-read it (404), reject non-hosts (403); mark the
current song `played` ONLY when one is set, then run the advance
procedure unconditionally and acknowledge. -/
def song_finished_for_user (db : DB) (user_id : Nat) : DB × Except HError Unit :=
  match get_current_for_user db user_id with
  | none => (db, Except.error HError.notFound)
  | some session_row =>
    match db.sessions.find? (fun s => s.id == session_row.id) with
    | none => (db, Except.error HError.notFound)
    | some session_details =>
      if session_details.host_id ≠ user_id then (db, Except.error HError.forbidden)
      else
        let step1 :=
          match session_details.current_song with
          | some cs => update_song_status db cs "played"
          | none => (db, Except.ok ())
        match step1 with
        | (db1, Except.error e) => (db1, Except.error e)
        | (db1, Except.ok _) =>
          match advance_to_next_song db1 session_row.id with
          | (db2, Except.error e) => (db2, Except.error e)
          | (db2, Except.ok _) => (db2, Except.ok ())

/-- Status of the `queued_songs` row with the given id. -/
def statusOf (db : DB) (queued_song_id : Nat) : Option String :=
  (db.queued_songs.find? (fun q => q.id == queued_song_id)).map (fun q => q.status)

/-- The `current_song` of the `sessions` row with the given id. -/
def currentSongOf (db : DB) (session_id : Nat) : Option (Option Nat) :=
  (db.sessions.find? (fun s => s.id == session_id)).map (fun s => s.current_song)

/-! ### Basic lemmas about session resolution -/

/-- When `get_current_for_user` returns a session row, the follow-up
`get_by_id` lookup the services perform resolves to the same row. -/
theorem get_current_find {db : DB} {uid : Nat} {s : Session}
    (h : get_current_for_user db uid = some s) :
    db.sessions.find? (fun x => x.id == s.id) = some s := by
  unfold get_current_for_user at h
  cases hu : db.users.find? (fun u => u.id == uid) with
  | none => simp [hu] at h
  | some u =>
    simp only [hu] at h
    cases hc : u.current_session with
    | none => simp [hc] at h
    | some sid =>
      simp only [hc] at h
      have hid := List.find?_some h
      have hseq : s.id = sid := by simpa using hid
      rw [hseq]
      exact h

/-! ### C10 — join-code validator asymmetry -/

/-- C10: the request validators are asymmetric — every join code of
length 11 to 20 passes `SessionCreateRequest` validation but fails
`SessionJoinRequest` validation, so a session created with such a code
can never be joined by code. -/
theorem join_code_validator_asymmetry (code : String)
    (h1 : 11 ≤ code.length) (h2 : code.length ≤ 20) :
    session_create_request_valid code = true ∧
    session_join_request_valid code = false := by
  unfold session_create_request_valid session_join_request_valid
  constructor
  · simp only [Bool.and_eq_true, decide_eq_true_eq]
    omega
  · have hf : decide (code.length ≤ 10) = false := by
      simp only [decide_eq_false_iff_not]
      omega
    rw [hf, Bool.and_false]

/-- Witness for C10 at the 12-character code "ABCDEFGHIJKL". -/
theorem join_code_validator_asymmetry_witness :
    session_create_request_valid "ABCDEFGHIJKL" = true ∧
    session_join_request_valid "ABCDEFGHIJKL" = false :=
  join_code_validator_asymmetry "ABCDEFGHIJKL" (by decide) (by decide)

/-! ### C4 — the catalog upsert call cannot bind -/

/-- C4: Python keyword binding rejects the only call of
`SongRepository.upsert_song` — the call passes `external_id` (and
`source`), which are not parameters, and omits the required
`spotify_id`; so every `addSong` request raises `TypeError` before any
catalog upsert or `queued_songs` insert is performed, and the upsert as
declared is keyed by `spotify_id`, not `external_id`. -/
theorem add_song_upsert_call_type_error :
    python_kwargs_bind_ok upsert_song_params add_song_upsert_call_kwargs = false ∧
    add_song_upsert_call_kwargs.contains "external_id" = true ∧
    upsert_song_params.contains "external_id" = false ∧
    upsert_song_params.contains "spotify_id" = true ∧
    add_song_upsert_call_kwargs.contains "spotify_id" = false := by
  decide

/-! ### C8 — non-host callers are rejected without mutation -/

/-- C8: when the caller's resolved session is hosted by someone else,
both `controlSession` and `songFinished` fail with `Forbidden` and
return the store unchanged — the host check precedes every write. -/
theorem host_only_controls_forbidden (db : DB) (user_id : Nat)
    (req : SessionControlRequest) (s : Session)
    (h1 : get_current_for_user db user_id = some s) (h2 : s.host_id ≠ user_id) :
    control_session_for_user db user_id req = (db, Except.error HError.forbidden) ∧
    song_finished_for_user db user_id = (db, Except.error HError.forbidden) := by
  have hf := get_current_find h1
  constructor
  · unfold control_session_for_user
    simp only [h1]
    rw [hf]
    simp [h2]
  · unfold song_finished_for_user
    simp only [h1]
    rw [hf]
    simp [h2]

/-- Store used to witness C8: user 2 is in session 100 but user 1 hosts
it. -/
def c8_db : DB :=
  { users := [⟨1, "host", some 100⟩, ⟨2, "guest", some 100⟩],
    sessions := [⟨100, "ABCD", 1, none, 0⟩],
    songs := [], queued_songs := [], votes := [], next_id := 200, now := 9 }

/-- Witness for C8: the non-host user 2 gets `Forbidden` from both
operations and the store is untouched. -/
theorem host_only_controls_forbidden_witness :
    control_session_for_user c8_db 2 ⟨none, some true, none⟩ =
      (c8_db, Except.error HError.forbidden) ∧
    song_finished_for_user c8_db 2 = (c8_db, Except.error HError.forbidden) :=
  host_only_controls_forbidden c8_db 2 ⟨none, some true, none⟩ ⟨100, "ABCD", 1, none, 0⟩
    rfl (by decide)

/-! ### C9 — vote upsert semantics -/

/-- Updating a vote row's `vote_value` does not change whether it
matches the (song, user) key. -/
theorem vote_update_key (qid uid : Nat) (v : Int) (w : Vote) :
    (((if w.queued_song_id == qid && w.user_id == uid then { w with vote_value := v }
        else w) : Vote).queued_song_id == qid &&
      ((if w.queued_song_id == qid && w.user_id == uid then { w with vote_value := v }
        else w) : Vote).user_id == uid) =
    (w.queued_song_id == qid && w.user_id == uid) := by
  by_cases h : (w.queued_song_id == qid && w.user_id == uid) = true
  · simp [h]
  · simp [h]

/-- Casting `v1` and then `v2` for the same (song, user) pair leaves
the vote table exactly as if only `v2` had been cast. -/
theorem upsertVote_overwrite (votes : List Vote) (qid uid : Nat) (v1 v2 : Int) :
    upsertVote (upsertVote votes qid uid v1) qid uid v2 =
      upsertVote votes qid uid v2 := by
  by_cases ha : votes.any (fun w => w.queued_song_id == qid && w.user_id == uid) = true
  · have hcomp :
        ((fun w : Vote => w.queued_song_id == qid && w.user_id == uid) ∘
          (fun w : Vote =>
            if w.queued_song_id == qid && w.user_id == uid then { w with vote_value := v1 }
            else w)) =
        (fun w : Vote => w.queued_song_id == qid && w.user_id == uid) :=
      funext (fun w => by simpa [Function.comp] using vote_update_key qid uid v1 w)
    have hany :
        ((votes.map
          (fun w : Vote =>
            if w.queued_song_id == qid && w.user_id == uid then { w with vote_value := v1 }
            else w)).any (fun w => w.queued_song_id == qid && w.user_id == uid)) = true := by
      rw [List.any_map, hcomp]
      exact ha
    have h1 : upsertVote votes qid uid v1 =
        votes.map
          (fun w : Vote =>
            if w.queued_song_id == qid && w.user_id == uid then { w with vote_value := v1 }
            else w) := by
      rw [upsertVote, if_pos ha]
    rw [h1, upsertVote, if_pos hany, upsertVote, if_pos ha, List.map_map]
    apply List.map_congr_left
    intro w _
    by_cases hw : (w.queued_song_id == qid && w.user_id == uid) = true
    · simp [Function.comp, hw]
    · simp [Function.comp, hw]
  · have hb : votes.any (fun w => w.queued_song_id == qid && w.user_id == uid) = false := by
      revert ha
      cases votes.any (fun w => w.queued_song_id == qid && w.user_id == uid) <;> simp
    have hany2 :
        ((votes ++ [(⟨qid, uid, v1⟩ : Vote)]).any
          (fun w => w.queued_song_id == qid && w.user_id == uid)) = true := by
      rw [List.any_append, hb]
      simp
    have h1 : upsertVote votes qid uid v1 = votes ++ [(⟨qid, uid, v1⟩ : Vote)] := by
      rw [upsertVote, if_neg ha]
    rw [h1, upsertVote, if_pos hany2, upsertVote, if_neg ha, List.map_append]
    congr 1
    · have hid : ∀ w ∈ votes,
          (if w.queued_song_id == qid && w.user_id == uid then { w with vote_value := v2 }
            else w) = w := by
        intro w hw
        have hk0 := List.any_eq_false.mp hb w hw
        have hkey : (w.queued_song_id == qid && w.user_id == uid) = false := by
          revert hk0
          cases w.queued_song_id == qid && w.user_id == uid <;> simp
        rw [hkey]
        simp
      calc votes.map
            (fun w : Vote =>
              if w.queued_song_id == qid && w.user_id == uid then { w with vote_value := v2 }
              else w)
          = votes.map id := List.map_congr_left hid
        _ = votes := List.map_id votes
    · simp

/-- After an upsert for a (song, user) pair that had at most one vote
row, the pair has exactly one vote row. -/
theorem upsertVote_filter_length (votes : List Vote) (qid uid : Nat) (v : Int)
    (h : (votes.filter (fun w => w.queued_song_id == qid && w.user_id == uid)).length ≤ 1) :
    ((upsertVote votes qid uid v).filter
      (fun w => w.queued_song_id == qid && w.user_id == uid)).length = 1 := by
  by_cases ha : votes.any (fun w => w.queued_song_id == qid && w.user_id == uid) = true
  · rw [upsertVote, if_pos ha, List.filter_map, List.length_map]
    have hcong :
        votes.filter
          ((fun w : Vote => w.queued_song_id == qid && w.user_id == uid) ∘
            (fun w : Vote =>
              if w.queued_song_id == qid && w.user_id == uid then { w with vote_value := v }
              else w)) =
        votes.filter (fun w => w.queued_song_id == qid && w.user_id == uid) :=
      List.filter_congr (fun w _ => by simpa [Function.comp] using vote_update_key qid uid v w)
    rw [hcong]
    rcases List.any_eq_true.mp ha with ⟨x, hx, hkx⟩
    have hmem : x ∈ votes.filter (fun w => w.queued_song_id == qid && w.user_id == uid) :=
      List.mem_filter.mpr ⟨hx, hkx⟩
    have hpos :
        0 < (votes.filter (fun w => w.queued_song_id == qid && w.user_id == uid)).length :=
      List.length_pos.mpr (List.ne_nil_of_mem hmem)
    omega
  · have hb : votes.any (fun w => w.queued_song_id == qid && w.user_id == uid) = false := by
      revert ha
      cases votes.any (fun w => w.queued_song_id == qid && w.user_id == uid) <;> simp
    rw [upsertVote, if_neg ha, List.filter_append]
    have h1 : votes.filter (fun w => w.queued_song_id == qid && w.user_id == uid) = [] := by
      rw [List.filter_eq_nil_iff]
      intro w hw
      exact List.any_eq_false.mp hb w hw
    rw [h1]
    simp

/-- C9 — casting vote `v1` then `v2` for the same (song, user) pair:
the vote table ends exactly as if only `v2` had been cast, the pair has
exactly one vote row (given the unique-pair invariant held before), and
the total returned by the second call is the sum-of-vote-rows aggregate
of that final table — the first vote contributes nothing. -/
theorem vote_overwrite_spec (db : DB) (qid uid : Nat) (v1 v2 : Int)
    (h : (db.votes.filter (fun w => w.queued_song_id == qid && w.user_id == uid)).length ≤ 1) :
    (vote_on_song (vote_on_song db qid uid v1).1 qid uid v2).1.votes =
      upsertVote db.votes qid uid v2 ∧
    ((vote_on_song (vote_on_song db qid uid v1).1 qid uid v2).1.votes.filter
      (fun w => w.queued_song_id == qid && w.user_id == uid)).length = 1 ∧
    (vote_on_song (vote_on_song db qid uid v1).1 qid uid v2).2 =
      specVoteTotal (upsertVote db.votes qid uid v2) qid := by
  have heq : (vote_on_song (vote_on_song db qid uid v1).1 qid uid v2).1.votes =
      upsertVote db.votes qid uid v2 := by
    show upsertVote (upsertVote db.votes qid uid v1) qid uid v2 = _
    exact upsertVote_overwrite db.votes qid uid v1 v2
  refine ⟨heq, ?_, ?_⟩
  · rw [heq]
    exact upsertVote_filter_length db.votes qid uid v2 h
  · have h2 : (vote_on_song (vote_on_song db qid uid v1).1 qid uid v2).2 =
        specVoteTotal (upsertVote (upsertVote db.votes qid uid v1) qid uid v2) qid := by
      show (alistLookup
        (fetch_votes_sum_map (upsertVote (upsertVote db.votes qid uid v1) qid uid v2) [qid])
        qid).getD 0 = _
      exact fetch_votes_sum_lookup _ _ _ (by simp)
    rw [upsertVote_overwrite] at h2
    exact h2

/-- Store used to witness C9: song 5 already has a `+1` vote from
user 3. -/
def c9_db : DB :=
  { users := [], sessions := [], songs := [], queued_songs := [],
    votes := [⟨5, 3, 1⟩], next_id := 50, now := 3 }

/-- Witness for C9: user 7 votes `+1` then `-1` on song 5. -/
theorem vote_overwrite_spec_witness :
    (vote_on_song (vote_on_song c9_db 5 7 1).1 5 7 (-1)).1.votes =
      upsertVote c9_db.votes 5 7 (-1) ∧
    ((vote_on_song (vote_on_song c9_db 5 7 1).1 5 7 (-1)).1.votes.filter
      (fun w => w.queued_song_id == 5 && w.user_id == 7)).length = 1 ∧
    (vote_on_song (vote_on_song c9_db 5 7 1).1 5 7 (-1)).2 =
      specVoteTotal (upsertVote c9_db.votes 5 7 (-1)) 5 :=
  vote_overwrite_spec c9_db 5 7 1 (-1) (by decide)

/-! ### C6 — duplicate join code surfaces as a 500, not Conflict -/

/-- Store used for C6: session 100 already owns join code "ABCD". -/
def c6_db : DB :=
  { users := [⟨1, "host", none⟩], sessions := [⟨100, "ABCD", 1, none, 0⟩],
    songs := [], queued_songs := [], votes := [], next_id := 101, now := 7 }

/-- Counterexample for C6: creating a session with the already-taken
code "ABCD" fails with the generic `internal` (HTTP 500) kind — the
repository wraps the unique-constraint failure in a `ValueError` that
no caller maps to `Conflict`. -/
theorem create_session_duplicate_code_counterexample :
    (create_session_for_user c6_db 1 "ABCD").2 = Except.error HError.internal ∧
    HError.internal ≠ HError.conflict :=
  ⟨rfl, by decide⟩

/-- C6 as amended: with a taken join code, `createSession` fails, but
with the generic `internal` failure (wrapped `ValueError` → 500), not
`Conflict`; and any successful creation answers with an empty queue and
no current song. -/
theorem create_session_conflict_amended (db db0 db0' : DB) (uid uid0 : Nat)
    (code code0 : String) (resp : CurrentSessionResponse)
    (hdup : db.sessions.any (fun s => s.join_code == code) = true)
    (hok : create_session_for_user db0 uid0 code0 = (db0', Except.ok resp)) :
    create_session_for_user db uid code = (db, Except.error HError.internal) ∧
    resp.queue = [] ∧ resp.current_song = none := by
  constructor
  · unfold create_session_for_user create_session
    rw [hdup]
    simp
  · unfold create_session_for_user at hok
    split at hok
    · simp at hok
    · split at hok
      · simp at hok
      · split at hok
        · simp at hok
        · rw [Prod.mk.injEq] at hok
          obtain ⟨-, hok2⟩ := hok
          injection hok2 with hr
          rw [← hr]
          exact ⟨rfl, rfl⟩

/-- Store used for the successful branch of the C6 witness. -/
def c6ok_db : DB :=
  { users := [⟨1, "host", none⟩], sessions := [], songs := [], queued_songs := [],
    votes := [], next_id := 100, now := 7 }

/-- Store after the successful creation in the C6 witness. -/
def c6ok_db' : DB :=
  { users := [⟨1, "host", some 100⟩], sessions := [⟨100, "WXYZ", 1, none, 7⟩],
    songs := [], queued_songs := [], votes := [], next_id := 101, now := 8 }

/-- Response of the successful creation in the C6 witness. -/
def c6ok_resp : CurrentSessionResponse :=
  { session :=
      { id := 100
        join_code := "WXYZ"
        created_at := 7
        host := ⟨1, "host", some 100⟩ }
    current_song := none
    queue := [] }

/-- Witness for C6 at concrete stores: duplicate "ABCD" → internal
failure with the store unchanged; fresh "WXYZ" → empty queue and no
current song. -/
theorem create_session_conflict_amended_witness :
    create_session_for_user c6_db 1 "ABCD" = (c6_db, Except.error HError.internal) ∧
    c6ok_resp.queue = [] ∧ c6ok_resp.current_song = none :=
  create_session_conflict_amended c6_db c6ok_db c6ok_db' 1 1 "ABCD" "WXYZ" c6ok_resp
    (by decide) rfl

/-! ### C5 — joinSession never returns the current song -/

/-- C5 as amended: for a known join code, `joinSession` answers with
the session (its id, its host) and the ordered queue, but its
`current_song` field is hard-coded `None` — even when the joined
session has a current song set. -/
theorem join_session_returns_null_current (db db' : DB) (uid : Nat) (code : String)
    (s : Session) (resp : CurrentSessionResponse)
    (hfind : db.sessions.find? (fun x => x.join_code == code) = some s)
    (hok : join_session_by_code db uid code = (db', Except.ok resp)) :
    resp.current_song = none ∧ resp.session.id = s.id ∧
    resp.session.host.id = s.host_id ∧ resp.queue = list_session_queue db' s.id := by
  unfold join_session_by_code at hok
  simp only [hfind] at hok
  split at hok
  · simp at hok
  · split at hok
    · simp at hok
    · rename_i heq host_row hhost
      rw [Prod.mk.injEq] at hok
      obtain ⟨hdb, hok2⟩ := hok
      injection hok2 with hr
      subst hdb
      rw [← hr]
      refine ⟨rfl, rfl, ?_, rfl⟩
      have hid := List.find?_some hhost
      simpa using hid

/-- Store used for C5: session 100 (code "ABCD") has `current_song`
set to queued song 10, which is `playing`; user 2 joins. -/
def c5_db : DB :=
  { users := [⟨1, "host", some 100⟩, ⟨2, "joiner", none⟩],
    sessions := [⟨100, "ABCD", 1, some 10, 0⟩],
    songs := [⟨"ext1", "isrc1", "Song1", "Artist1", "Album1", 1000, "url1"⟩],
    queued_songs := [⟨10, 100, 1, "ext1", "playing", 1⟩],
    votes := [], next_id := 11, now := 4 }

/-- Counterexample for C5: session 100 has `current_song = some 10`,
yet the view `joinSession` returns to user 2 carries
`current_song = none`. -/
theorem join_session_counterexample :
    currentSongOf c5_db 100 = some (some 10) ∧
    Except.map (fun r : CurrentSessionResponse => r.current_song)
      (join_session_by_code c5_db 2 "ABCD").2 = Except.ok none :=
  ⟨rfl, rfl⟩

/-- Store after user 2 joined session 100 in the C5 witness. -/
def c5_db' : DB :=
  { users := [⟨1, "host", some 100⟩, ⟨2, "joiner", some 100⟩],
    sessions := [⟨100, "ABCD", 1, some 10, 0⟩],
    songs := [⟨"ext1", "isrc1", "Song1", "Artist1", "Album1", 1000, "url1"⟩],
    queued_songs := [⟨10, 100, 1, "ext1", "playing", 1⟩],
    votes := [], next_id := 11, now := 4 }

/-- Response of the join in the C5 witness. -/
def c5_resp : CurrentSessionResponse :=
  { session :=
      { id := 100
        join_code := "ABCD"
        created_at := 0
        host := ⟨1, "host", some 100⟩ }
    current_song := none
    queue :=
      [{ id := 10
         status := "playing"
         added_at := 1
         votes := 0
         song := some ⟨"ext1", "isrc1", "Song1", "Artist1", "Album1", 1000, "url1"⟩
         added_by := some ⟨1, "host", some 100⟩ }] }

/-- Witness for C5 at the concrete store: the amended conclusions hold
for user 2 joining "ABCD". -/
theorem join_session_returns_null_current_witness :
    c5_resp.current_song = none ∧ c5_resp.session.id = 100 ∧
    c5_resp.session.host.id = 1 ∧ c5_resp.queue = list_session_queue c5_db' 100 :=
  join_session_returns_null_current c5_db c5_db' 2 "ABCD" ⟨100, "ABCD", 1, some 10, 0⟩
    c5_resp rfl rfl

/-! ### C7 — songFinished with no current song still succeeds -/

/-- C7 as amended: `songFinished` raises `NotFound` when (and only by
way of) the caller having no resolvable active session; when the host
calls it on a session whose `current_song` is null it does NOT raise —
it skips the mark-played step and returns exactly the result of the
advance procedure (which promotes the top queued song, if any). -/
theorem song_finished_null_current (db db0 : DB) (uid uid0 : Nat) (s : Session)
    (h1 : get_current_for_user db uid = some s) (h2 : s.host_id = uid)
    (h3 : s.current_song = none)
    (h0 : get_current_for_user db0 uid0 = none) :
    song_finished_for_user db uid =
      (match advance_to_next_song db s.id with
       | (db2, Except.ok _) => (db2, Except.ok ())
       | (db2, Except.error e) => (db2, Except.error e)) ∧
    song_finished_for_user db0 uid0 = (db0, Except.error HError.notFound) := by
  constructor
  · have hf := get_current_find h1
    unfold song_finished_for_user
    simp only [h1]
    rw [hf]
    have hne : ¬s.host_id ≠ uid := by simp [h2]
    simp only [h3, if_neg hne]
    cases hadv : advance_to_next_song db s.id with
    | mk db2 r => cases r <;> rfl
  · unfold song_finished_for_user
    simp only [h0]

/-- Store used for C7: user 1 hosts session 100, `current_song` is
null, and song 10 ("ext1") waits in the queue with status `queued`. -/
def c7_db : DB :=
  { users := [⟨1, "host", some 100⟩],
    sessions := [⟨100, "ABCD", 1, none, 0⟩],
    songs := [⟨"ext1", "isrc1", "Song1", "Artist1", "Album1", 1000, "url1"⟩],
    queued_songs := [⟨10, 100, 1, "ext1", "queued", 3⟩],
    votes := [], next_id := 11, now := 4 }

/-- Counterexample for C7: the host calls `songFinished` on a session
with no current song; instead of failing with `NotFound`, the call
acknowledges with success AND advances the queue — song 10 becomes
`playing` and `current_song`. -/
theorem song_finished_counterexample :
    (song_finished_for_user c7_db 1).2 = Except.ok () ∧
    statusOf (song_finished_for_user c7_db 1).1 10 = some "playing" ∧
    currentSongOf (song_finished_for_user c7_db 1).1 100 = some (some 10) :=
  ⟨rfl, rfl, rfl⟩

/-- Store used for the no-session branch of the C7 witness. -/
def c7b_db : DB :=
  { users := [⟨9, "loner", none⟩], sessions := [], songs := [], queued_songs := [],
    votes := [], next_id := 1, now := 1 }

/-- Witness for C7 at the concrete stores. -/
theorem song_finished_null_current_witness :
    song_finished_for_user c7_db 1 =
      (match advance_to_next_song c7_db 100 with
       | (db2, Except.ok _) => (db2, Except.ok ())
       | (db2, Except.error e) => (db2, Except.error e)) ∧
    song_finished_for_user c7b_db 9 = (c7b_db, Except.error HError.notFound) :=
  song_finished_null_current c7_db c7b_db 1 9 ⟨100, "ABCD", 1, none, 0⟩ rfl rfl rfl rfl

/-! ### Characterizations of the storage writes -/

/-- Every item returned by `get_next_queued_song` is backed by a
`queued_songs` row of the session with the same id and status. -/
theorem get_next_queued_song_src {db : DB} {sid : Nat} {item : QueueItem}
    (h : get_next_queued_song db sid = some item) :
    ∃ row ∈ db.queued_songs, row.session_id = sid ∧ row.id = item.id ∧
      row.status = item.status := by
  unfold get_next_queued_song at h
  have h1 : item ∈ (list_session_queue db sid).filter (fun it => it.status == "queued") :=
    List.mem_of_mem_head? (by simp [h])
  have h2 := (List.mem_filter.mp h1).1
  rcases list_session_queue_mem_src h2 with ⟨row, hrow, hid, hstat, -, -⟩
  rcases mem_session_queued_rows hrow with ⟨hmem, hsid⟩
  exact ⟨row, hmem, hsid, hid.symm, hstat.symm⟩

/-- What a successful advance does to the store: either it found a next
queued item, marked exactly the rows with that id `playing` and pointed
the session at it, or the queue was exhausted and it only cleared the
session's `current_song`. -/
theorem advance_result {db : DB} {sid : Nat} {db' : DB} {r : Option QueueItem}
    (hadv : advance_to_next_song db sid = (db', Except.ok r)) :
    (∃ item, get_next_queued_song db sid = some item ∧
      db'.queued_songs = db.queued_songs.map
        (fun q => if q.id == item.id then { q with status := "playing" } else q) ∧
      db'.sessions = db.sessions.map
        (fun x => if x.id == sid then { x with current_song := some item.id } else x)) ∨
    (get_next_queued_song db sid = none ∧
      db'.queued_songs = db.queued_songs ∧
      db'.sessions = db.sessions.map
        (fun x => if x.id == sid then { x with current_song := none } else x)) := by
  unfold advance_to_next_song at hadv
  split at hadv
  · rename_i item hnext
    split at hadv
    · rename_i db1 a hupd
      split at hadv
      · rename_i db2 b hset
        rw [Prod.mk.injEq] at hadv
        obtain ⟨hdb, -⟩ := hadv
        unfold update_song_status at hupd
        split at hupd
        · rw [Prod.mk.injEq] at hupd
          obtain ⟨hdb1, -⟩ := hupd
          unfold set_current_song at hset
          split at hset
          · rw [Prod.mk.injEq] at hset
            obtain ⟨hdb2, -⟩ := hset
            subst hdb
            subst hdb2
            subst hdb1
            exact Or.inl ⟨item, hnext, rfl, rfl⟩
          · simp at hset
        · simp at hupd
      · rename_i db2 e hset
        simp at hadv
    · rename_i db1 e hupd
      simp at hadv
  · rename_i hnext
    split at hadv
    · rename_i db1 a hset
      rw [Prod.mk.injEq] at hadv
      obtain ⟨hdb, -⟩ := hadv
      unfold set_current_song at hset
      split at hset
      · rw [Prod.mk.injEq] at hset
        obtain ⟨hdb1, -⟩ := hset
        subst hdb
        subst hdb1
        exact Or.inr ⟨hnext, rfl, rfl⟩
      · simp at hset
    · rename_i db1 e hset
      simp at hadv

/-- The keyword binding of the `upsert_song` call site is rejected:
shared computational fact behind the add-flow theorems. -/
theorem add_song_upsert_kwargs_rejected :
    python_kwargs_bind_ok upsert_song_params add_song_upsert_call_kwargs = false := by
  decide

/-- With an active session, `addSong` fails with the generic internal
error (the `TypeError` of the upsert call, surfaced as a 500) and
leaves the store untouched, whatever the dead code past the call would
have done. -/
theorem add_song_always_internal
    (rest : DB → Session → DB × Except HError QueueItem)
    (db : DB) (user_id : Nat) (req : AddSongRequest) (s : Session)
    (h1 : get_current_for_user db user_id = some s) :
    add_song_to_queue_for_user rest db user_id req =
      (db, Except.error HError.internal) := by
  unfold add_song_to_queue_for_user
  simp only [h1]
  simp [add_song_upsert_kwargs_rejected]

/-! ### C2 — the current-song invariant, amended -/

/-- C2 as amended: the advance procedure (shared by host skip and
songFinished) maintains the invariant — after a successful advance, a
session row of the advanced session with a non-null `current_song`
references a `queued_songs` row of that session in status `playing`.
`addSong`, however, never adds a song at all in the current program:
whenever the caller has an active session the request dies with the
generic internal error (the `TypeError` of the upsert call at
queue_service.py:48, see C4) before any write — whatever the dead
remainder of the flow (`rest`) would have done — so the store is
returned unchanged and in particular no song ever becomes
`current_song` or `playing` through `addSong`. -/
theorem current_song_invariant_amended
    (db db' : DB) (sid : Nat) (r : Option QueueItem)
    (rest : DB → Session → DB × Except HError QueueItem)
    (dbA : DB) (uidA : Nat) (req : AddSongRequest) (sA : Session)
    (hadv : advance_to_next_song db sid = (db', Except.ok r))
    (h1 : get_current_for_user dbA uidA = some sA) :
    (∀ s' ∈ db'.sessions, s'.id = sid → ∀ q, s'.current_song = some q →
      ∃ row ∈ db'.queued_songs, row.id = q ∧ row.session_id = sid ∧
        row.status = "playing") ∧
    add_song_to_queue_for_user rest dbA uidA req =
      (dbA, Except.error HError.internal) := by
  constructor
  · intro s' hs' hsid q hq
    rcases advance_result hadv with ⟨item2, hnext, hqs, hsess⟩ | ⟨hnext, hqs, hsess⟩
    · rw [hsess] at hs'
      rcases List.mem_map.mp hs' with ⟨x, hx, hfx⟩
      by_cases hxid : (x.id == sid) = true
      · rw [if_pos hxid] at hfx
        rcases get_next_queued_song_src hnext with ⟨row, hrowmem, hrowsid, hrowid, -⟩
        rw [← hfx] at hq
        have hqe : q = item2.id := by
          simpa using hq.symm
        refine ⟨{ row with status := "playing" }, ?_, ?_, ?_, rfl⟩
        · rw [hqs]
          refine List.mem_map.mpr ⟨row, hrowmem, ?_⟩
          rw [if_pos (by simpa using hrowid)]
        · show row.id = q
          rw [hqe]
          exact hrowid
        · show row.session_id = sid
          exact hrowsid
      · rw [if_neg hxid] at hfx
        subst hfx
        exact absurd (by simpa using hsid) hxid
    · rw [hsess] at hs'
      rcases List.mem_map.mp hs' with ⟨x, hx, hfx⟩
      by_cases hxid : (x.id == sid) = true
      · rw [if_pos hxid] at hfx
        rw [← hfx] at hq
        simp at hq
      · rw [if_neg hxid] at hfx
        subst hfx
        exact absurd (by simpa using hsid) hxid
  · exact add_song_always_internal rest dbA uidA req sA h1

/-- Store used for C2: user 1's session 100 is empty with no current
song. -/
def c2_db : DB :=
  { users := [⟨1, "u1", some 100⟩],
    sessions := [⟨100, "ABCD", 1, none, 0⟩],
    songs := [], queued_songs := [], votes := [], next_id := 10, now := 5 }

/-- Song request used for C2. -/
def c2_req : AddSongRequest :=
  ⟨"trackA", "isrcA", "SongA", "ArtA", "AlbA", 1000, "urlA", "spotify"⟩

/-- A probe continuation standing for the dead code after the upsert
call: had the flow reached it, it would claim the session's
`current_song` slot and answer `ok` with a fresh item.  The theorems
below show the result is the internal failure with the store
unchanged, so the probe never ran. -/
def c2_probe_rest : DB → Session → DB × Except HError QueueItem :=
  fun d s =>
    ({ d with
        sessions := d.sessions.map
          (fun x => if x.id == s.id then { x with current_song := some d.next_id } else x) },
      Except.ok ⟨d.next_id, "queued", d.now, 0, none, none⟩)

/-- Counterexample for C2: user 1 adds a song to the empty session 100
whose `current_song` is null; instead of the new song becoming
`playing`/current, the call fails with the generic internal error (the
upsert `TypeError`, C4) and the store is returned unchanged — no
`queued_songs` row exists and `current_song` is still null, so nothing
became `current_song`, let alone status `playing`. -/
theorem add_song_playing_counterexample :
    add_song_to_queue_for_user c2_probe_rest c2_db 1 c2_req =
      (c2_db, Except.error HError.internal) ∧
    currentSongOf c2_db 100 = some none ∧
    c2_db.queued_songs = [] :=
  ⟨rfl, rfl, rfl⟩

/-- Store used for the advance half of the C2 witness: session 300
with song 30 waiting in `queued` status. -/
def c2w_db : DB :=
  { users := [⟨3, "h", some 300⟩],
    sessions := [⟨300, "EFGH", 3, none, 0⟩],
    songs := [⟨"extW", "isrcW", "SongW", "ArtW", "AlbW", 500, "urlW"⟩],
    queued_songs := [⟨30, 300, 3, "extW", "queued", 2⟩],
    votes := [], next_id := 31, now := 6 }

/-- Store after the advance in the C2 witness. -/
def c2w_db' : DB :=
  { users := [⟨3, "h", some 300⟩],
    sessions := [⟨300, "EFGH", 3, some 30, 0⟩],
    songs := [⟨"extW", "isrcW", "SongW", "ArtW", "AlbW", 500, "urlW"⟩],
    queued_songs := [⟨30, 300, 3, "extW", "playing", 2⟩],
    votes := [], next_id := 31, now := 6 }

/-- The queue item the advance in the C2 witness promoted. -/
def c2w_item : QueueItem :=
  { id := 30
    status := "queued"
    added_at := 2
    votes := 0
    song := some ⟨"extW", "isrcW", "SongW", "ArtW", "AlbW", 500, "urlW"⟩
    added_by := some ⟨3, "h", some 300⟩ }

/-- Witness for C2 at the concrete stores: the advance on session 300
yields a `playing` current song, while the add on session 100 fails
with the store unchanged. -/
theorem current_song_invariant_amended_witness :
    (∀ s' ∈ c2w_db'.sessions, s'.id = 300 → ∀ q, s'.current_song = some q →
      ∃ row ∈ c2w_db'.queued_songs, row.id = q ∧ row.session_id = 300 ∧
        row.status = "playing") ∧
    add_song_to_queue_for_user c2_probe_rest c2_db 1 c2_req =
      (c2_db, Except.error HError.internal) :=
  current_song_invariant_amended c2w_db c2w_db' 300 (some c2w_item) c2_probe_rest
    c2_db 1 c2_req ⟨100, "ABCD", 1, none, 0⟩ rfl rfl

/-! ### C3 — no compare-and-set, and the claim path is dead code -/

/-- C3 as amended: the storage layer offers no compare-and-set —
`set_current_song` is conditioned only on the session id, so it
succeeds and overwrites `current_song` even when the slot is non-null
(last two conjuncts); and the add-while-empty claim never plays out
dynamically in the current program, because every concurrent `addSong`
fails with the upsert `TypeError` (C4) before any write: after
concurrent adds to a session whose `current_song` is null — in either
completion order, whatever the dead remainder of the flow would have
done — the store is unchanged, so zero adders (not exactly one) have
their song become `current_song` and no added song exists in any
status. -/
theorem add_race_read_then_write
    (rest1 rest2 : DB → Session → DB × Except HError QueueItem)
    (db dbC : DB) (u1 u2 : Nat) (r1 r2 : AddSongRequest)
    (s1 s2 : Session) (sid : Nat) (s : Session) (v : Option Nat) (x : Nat)
    (h1 : get_current_for_user db u1 = some s1)
    (h2 : get_current_for_user db u2 = some s2)
    (hmem : s ∈ dbC.sessions) (hsid : s.id = sid)
    (hcur : s.current_song = some x) :
    add_song_to_queue_for_user rest1 db u1 r1 = (db, Except.error HError.internal) ∧
    add_song_to_queue_for_user rest2 db u2 r2 = (db, Except.error HError.internal) ∧
    (add_song_to_queue_for_user rest2
      (add_song_to_queue_for_user rest1 db u1 r1).1 u2 r2).1 = db ∧
    (set_current_song dbC sid v).2 = Except.ok () ∧
    { s with current_song := v } ∈ (set_current_song dbC sid v).1.sessions := by
  have hadd1 := add_song_always_internal rest1 db u1 r1 s1 h1
  have hadd2 := add_song_always_internal rest2 db u2 r2 s2 h2
  have hany : dbC.sessions.any (fun z => z.id == sid) = true :=
    List.any_eq_true.mpr ⟨s, hmem, by simp [hsid]⟩
  refine ⟨hadd1, hadd2, ?_, ?_, ?_⟩
  · rw [hadd1]
    show (add_song_to_queue_for_user rest2 db u2 r2).1 = db
    rw [hadd2]
  · rw [set_current_song, if_pos hany]
  · rw [set_current_song, if_pos hany]
    refine List.mem_map.mpr ⟨s, hmem, ?_⟩
    rw [if_pos (by simp [hsid])]

/-- Store used for C3: users 1 and 2 are both in the empty session
100, whose `current_song` is null. -/
def c3_db : DB :=
  { users := [⟨1, "u1", some 100⟩, ⟨2, "u2", some 100⟩],
    sessions := [⟨100, "ABCD", 1, none, 0⟩],
    songs := [], queued_songs := [], votes := [], next_id := 10, now := 5 }

/-- First adder's request in the C3 scenario. -/
def c3_req1 : AddSongRequest :=
  ⟨"trackA", "isrcA", "SongA", "ArtA", "AlbA", 1000, "urlA", "spotify"⟩

/-- Second adder's request in the C3 scenario. -/
def c3_req2 : AddSongRequest :=
  ⟨"trackB", "isrcB", "SongB", "ArtB", "AlbB", 2000, "urlB", "spotify"⟩

/-- A probe continuation for the dead code past the upsert call in the
C3 scenario: it would claim the `current_song` slot if it ever ran. -/
def c3_probe_rest : DB → Session → DB × Except HError QueueItem :=
  fun d s =>
    ({ d with
        sessions := d.sessions.map
          (fun z => if z.id == s.id then { z with current_song := some d.next_id } else z) },
      Except.ok ⟨d.next_id, "queued", d.now, 0, none, none⟩)

/-- Store used for the compare-and-set part of C3: session 100 already
has `current_song = some 10`. -/
def c3_cas_db : DB :=
  { users := [⟨1, "u1", some 100⟩],
    sessions := [⟨100, "ABCD", 1, some 10, 0⟩],
    songs := [], queued_songs := [⟨10, 100, 1, "trackA", "playing", 1⟩],
    votes := [], next_id := 11, now := 2 }

/-- Counterexample for C3: two users add "concurrently" to the empty
session 100 — both requests fail with the generic internal error (the
upsert `TypeError`, C4) and write nothing, so ZERO adders' songs become
`current_song` (the claim says exactly one) and no songs exist to
remain `queued`; and the storage update the flow would have used is no
compare-and-set: `set_current_song` succeeds on session 100 of
`c3_cas_db` and replaces its NON-null `current_song = some 10` with
`some 11`, with no only-if-null condition. -/
theorem add_race_counterexample :
    add_song_to_queue_for_user c3_probe_rest c3_db 1 c3_req1 =
      (c3_db, Except.error HError.internal) ∧
    add_song_to_queue_for_user c3_probe_rest c3_db 2 c3_req2 =
      (c3_db, Except.error HError.internal) ∧
    currentSongOf c3_db 100 = some none ∧
    c3_db.queued_songs = [] ∧
    (set_current_song c3_cas_db 100 (some 11)).2 = Except.ok () ∧
    currentSongOf (set_current_song c3_cas_db 100 (some 11)).1 100 = some (some 11) :=
  ⟨rfl, rfl, rfl, rfl, rfl, rfl⟩

/-- Witness for C3 at the concrete stores. -/
theorem add_race_read_then_write_witness :
    add_song_to_queue_for_user c3_probe_rest c3_db 1 c3_req1 =
      (c3_db, Except.error HError.internal) ∧
    add_song_to_queue_for_user c3_probe_rest c3_db 2 c3_req2 =
      (c3_db, Except.error HError.internal) ∧
    (add_song_to_queue_for_user c3_probe_rest
      (add_song_to_queue_for_user c3_probe_rest c3_db 1 c3_req1).1 2 c3_req2).1 = c3_db ∧
    (set_current_song c3_cas_db 100 (some 11)).2 = Except.ok () ∧
    (⟨100, "ABCD", 1, some 11, 0⟩ : Session) ∈
      (set_current_song c3_cas_db 100 (some 11)).1.sessions :=
  add_race_read_then_write c3_probe_rest c3_probe_rest c3_db c3_cas_db 1 2 c3_req1
    c3_req2 ⟨100, "ABCD", 1, none, 0⟩ ⟨100, "ABCD", 1, none, 0⟩ 100
    ⟨100, "ABCD", 1, some 10, 0⟩ (some 11) 10 rfl rfl (by decide) rfl rfl

end QueueIT
